import Mathlib

/-!
Verification of the epicenter audio capture / normalization core
(`apps/whispering/src-tauri/src/recorder` and `.../src/transcription`),
as a shallow embedding in Lean 4.

Modelling conventions:
* Machine integers (`u16`, `u32`, `u64`) are `Nat` with explicit `% 2^w`
  at the points where the Rust code casts or can wrap.
* `f32`/`f64` arithmetic is idealized as exact rational arithmetic (`ℚ`).
* The on-disk WAV file is modelled as the list of its 44 header bytes
  (`headerBytes`, each entry < 256) together with the list of 32-bit float
  sample values appended after the header (`dataFloats`); the IEEE-754 bit
  encoding of the payload floats is not interpreted, but every header byte
  is modelled exactly.
* Wall-clock-dependent behaviour (the once-per-second periodic header
  rewrite) is modelled by an explicit `headerDue : Bool` argument standing
  for `last_header_update.elapsed().as_secs() >= 1`.
-/

/-- Little-endian byte encoding of a `u16` value (2 bytes). -/
def u16le (n : Nat) : List Nat :=
  [n % 256, n / 256 % 256]

/-- Little-endian byte encoding of a `u32` value (4 bytes). -/
def u32le (n : Nat) : List Nat :=
  [n % 256, n / 256 % 256, n / 65536 % 256, n / 16777216 % 256]

/-- Read a little-endian `u32` from a byte list at position `p`
(out-of-range bytes read as 0). -/
def readU32le (bs : List Nat) (p : Nat) : Nat :=
  bs.getD p 0 + 256 * bs.getD (p + 1) 0 + 65536 * bs.getD (p + 2) 0 +
    16777216 * bs.getD (p + 3) 0

/-- Overwrite the bytes of `f` starting at position `p` with `bs`,
keeping the rest (models `seek(SeekFrom::Start(p))` followed by
`write_all(bs)`; every seek the writer performs targets a position
inside the already-written file). -/
def storeBytes (f : List Nat) (p : Nat) (bs : List Nat) : List Nat :=
  f.take p ++ bs ++ f.drop (p + bs.length)

/-- State of `recorder::wav_writer::WavWriter`.  `headerBytes` is the
44-byte header region of the file; `dataFloats` is the sequence of f32
sample values appended after it (each one occupying 4 bytes on disk). -/
structure WavWriter where
  headerBytes : List Nat
  dataFloats : List ℚ
  sample_rate : Nat
  channels : Nat
  bits_per_sample : Nat
  bytes_per_sample : Nat
  data_chunk_size_pos : Nat
  riff_chunk_size_pos : Nat
  samples_written : Nat
deriving Repr, DecidableEq

/-- Model of `WavWriter::new`: writes the initial 44-byte header (RIFF / WAVE /
"fmt " with format code 3 = IEEE float, 32 bits per sample / "data"),
with `0xFFFFFFFF` placeholders in the two mutable size fields at byte
offsets 4 (RIFF chunk size) and 40 (data chunk size). -/
def wavWriterNew (sample_rate : Nat) (channels : Nat) : WavWriter :=
  let bits_per_sample := 32
  let bytes_per_sample := bits_per_sample / 8
  let byte_rate := sample_rate * channels * bytes_per_sample % 2 ^ 32
  let block_align := channels * bytes_per_sample % 2 ^ 16
  { headerBytes :=
      [82, 73, 70, 70] ++ [255, 255, 255, 255] ++ [87, 65, 86, 69] ++
      [102, 109, 116, 32] ++ u32le 16 ++ u16le 3 ++ u16le (channels % 2 ^ 16) ++
      u32le (sample_rate % 2 ^ 32) ++ u32le byte_rate ++ u16le block_align ++
      u16le bits_per_sample ++ [100, 97, 116, 97] ++ [255, 255, 255, 255]
    dataFloats := []
    sample_rate := sample_rate
    channels := channels
    bits_per_sample := bits_per_sample
    bytes_per_sample := bytes_per_sample
    data_chunk_size_pos := 40
    riff_chunk_size_pos := 4
    samples_written := 0 }

/-- Model of `WavWriter::update_headers`: recompute `data_size` and `file_size`
from the running sample counter and store them (as `u32`) at the two
recorded header positions, leaving everything else unchanged. -/
def update_headers (w : WavWriter) : WavWriter :=
  let data_size := w.samples_written * w.bytes_per_sample % 2 ^ 64
  let file_size := (36 + data_size) % 2 ^ 64
  let h1 := storeBytes w.headerBytes w.riff_chunk_size_pos (u32le (file_size % 2 ^ 32))
  let h2 := storeBytes h1 w.data_chunk_size_pos (u32le (data_size % 2 ^ 32))
  { w with headerBytes := h2 }

/-- Model of `WavWriter::finalize`: one unconditional header rewrite (plus a
flush, which has no effect on the modelled state). -/
def wavFinalize (w : WavWriter) : WavWriter :=
  update_headers w

/-- The f32 value appended for an i16 capture sample:
`sample as f32 / i16::MAX as f32`, i.e. division by 32767. -/
def i16ToF32 (s : ℤ) : ℚ :=
  (s : ℚ) / 32767

/-- The f32 value appended for a u16 capture sample:
`(sample as f32 / u16::MAX as f32) * 2.0 - 1.0`, i.e. `(u/65535)*2 - 1`. -/
def u16ToF32 (u : Nat) : ℚ :=
  (u : ℚ) / 65535 * 2 - 1

/-- Model of `WavWriter::write_samples_f32`: append the samples as-is and bump the
counter; rewrite the header if a second has elapsed (`headerDue`). -/
def write_samples_f32 (w : WavWriter) (samples : List ℚ) (headerDue : Bool) : WavWriter :=
  let w := { w with
    dataFloats := w.dataFloats ++ samples
    samples_written := w.samples_written + samples.length }
  if headerDue then update_headers w else w

/-- Model of `WavWriter::write_samples_i16`: convert each i16 sample to f32 via
`i16ToF32`, append, bump the counter, and conditionally rewrite headers. -/
def write_samples_i16 (w : WavWriter) (samples : List ℤ) (headerDue : Bool) : WavWriter :=
  let w := { w with
    dataFloats := w.dataFloats ++ samples.map i16ToF32
    samples_written := w.samples_written + samples.length }
  if headerDue then update_headers w else w

/-- Model of `WavWriter::write_samples_u16`: convert each u16 sample to f32 via
`u16ToF32`, append, bump the counter, and conditionally rewrite headers. -/
def write_samples_u16 (w : WavWriter) (samples : List Nat) (headerDue : Bool) : WavWriter :=
  let w := { w with
    dataFloats := w.dataFloats ++ samples.map u16ToF32
    samples_written := w.samples_written + samples.length }
  if headerDue then update_headers w else w

/-- Model of `WavWriter::get_duration_seconds`:
`samples_written as f32 / (sample_rate as f32 * channels as f32)`. -/
def get_duration_seconds (w : WavWriter) : ℚ :=
  (w.samples_written : ℚ) / ((w.sample_rate : ℚ) * (w.channels : ℚ))

/-- Model of `WavWriter::get_metadata`: `(sample_rate, channels, duration)`. -/
def get_metadata (w : WavWriter) : Nat × Nat × ℚ :=
  (w.sample_rate, w.channels, get_duration_seconds w)

/-!
### Audio normalizer (`transcription/mod.rs`)
-/

/-- The error enum of `transcription/error.rs`, extended with the
`FfmpegNotFoundError` variant that `transcription/mod.rs` constructs
(line 364).  Constructor `TranscriptionFailed` models the source variant
`TranscriptionError::TranscriptionError`. -/
inductive TranscriptionError where
  | AudioReadError (message : String)
  | GpuError (message : String)
  | ModelLoadError (message : String)
  | TranscriptionFailed (message : String)
  | FfmpegNotFoundError (message : String)
deriving Repr, DecidableEq

/-- Model of `TranscriptionError::name`: the discriminating tag of each variant. -/
def TranscriptionError.name : TranscriptionError → String
  | .AudioReadError _ => "AudioReadError"
  | .GpuError _ => "GpuError"
  | .ModelLoadError _ => "ModelLoadError"
  | .TranscriptionFailed _ => "TranscriptionError"
  | .FfmpegNotFoundError _ => "FfmpegNotFoundError"

/-- The error enum of `whisper_cpp/error.rs` (message payloads kept). -/
inductive WhisperCppError where
  | AudioFormatNotSupported
  | AudioReadError (message : String)
  | ModelLoadError (message : String)
  | GpuError (message : String)
  | TranscriptionFailed (message : String)
  | StateCreationError (message : String)
  | SegmentError (message : String)
deriving Repr, DecidableEq

/-- A WAV format descriptor as produced by parsing a container header:
mirrors `hound::WavSpec` (`formatCode` 1 = integer PCM, 3 = IEEE float). -/
structure WavSpecP where
  formatCode : Nat
  channels : Nat
  sampleRate : Nat
  bitsPerSample : Nat
deriving Repr, DecidableEq

/-- Modelled from the spec: parsing of the standard RIFF/WAVE container
layout of §4.4/§6, which in the source is done by the external `hound`
crate (`hound::WavReader::new`), not by code under `src/`.  The layout is
`"RIFF"`, u32 size, `"WAVE"`, `"fmt "`, u32 16, u16 format-code,
u16 channels, u32 sample rate, u32 byte rate, u16 block align,
u16 bits-per-sample, `"data"`, u32 data-size. -/
def parseWavHeader (bs : List Nat) : Option WavSpecP :=
  if 44 ≤ bs.length ∧
      bs.take 4 = [82, 73, 70, 70] ∧
      (bs.drop 8).take 4 = [87, 65, 86, 69] ∧
      (bs.drop 12).take 4 = [102, 109, 116, 32] ∧
      readU32le bs 16 = 16 ∧
      (bs.drop 36).take 4 = [100, 97, 116, 97] then
    some
      { formatCode := bs.getD 20 0 + 256 * bs.getD 21 0
        channels := bs.getD 22 0 + 256 * bs.getD 23 0
        sampleRate := readU32le bs 24
        bitsPerSample := bs.getD 34 0 + 256 * bs.getD 35 0 }
  else
    none

/-- Model of `is_valid_wav_format`: the audio parses as a WAV container whose spec
is integer samples, 1 channel, 16000 Hz, 16 bits per sample. -/
def is_valid_wav_format (audio_data : List Nat) : Bool :=
  match parseWavHeader audio_data with
  | some spec =>
      spec.formatCode = 1 && spec.channels = 1 && spec.sampleRate = 16000 &&
        spec.bitsPerSample = 16
  | none => false

/-- Split a list into consecutive chunks of exactly `n` elements,
dropping any trailing elements that do not fill a whole chunk
(models Rust's `chunks_exact(n)`). -/
def chunksExact (n : Nat) (l : List α) : List (List α) :=
  if _h : 0 < n ∧ n ≤ l.length then
    l.take n :: chunksExact n (l.drop n)
  else
    []
termination_by l.length
decreasing_by
  simp only [List.length_drop]
  omega

/-- Step 2 of `convert_audio_rust` (lines 111-130): downmix to mono.
One channel: unchanged; two channels: `(chunk[0] + chunk[1]) / 2.0` per
exact pair; more channels: `chunk.iter().sum() / channels` per exact
`channels`-sized chunk. -/
def downmixToMono (channels : Nat) (samples : List ℚ) : List ℚ :=
  if channels = 1 then
    samples
  else if channels = 2 then
    (chunksExact 2 samples).map (fun chunk => (chunk.getD 0 0 + chunk.getD 1 0) / 2)
  else
    (chunksExact channels samples).map (fun chunk => chunk.sum / (channels : ℚ))

/-- Model of `round()` of a nonnegative f64 followed by `as usize`, as used for
`expected_output_len = (len as f64 * resample_ratio).round() as usize`. -/
def ratRoundToNat (x : ℚ) : Nat :=
  (round x).toNat

/-- The state of one `rubato::SincFixedIn` resampler instance, modelled
abstractly: the external crate maps each fixed-size input chunk to an
output chunk (or fails).  `rubato` is an external collaborator, not code
under `src/`. -/
structure RubatoResampler where
  process : List ℚ → Except String (List ℚ)

/-- The external `rubato` constructor `SincFixedIn::new`, modelled
abstractly as a function of the resample ratio that either yields a
resampler or fails. -/
structure RubatoOracle where
  construct : ℚ → Except String RubatoResampler

/-- The chunked processing loop of `convert_audio_rust` (lines 182-207):
take 1024-sample chunks of the mono input, zero-pad the final chunk,
process each chunk through the resampler, and concatenate the outputs. -/
def processChunks (r : RubatoResampler) (rest : List ℚ) : Except String (List ℚ) :=
  if _h : rest.length = 0 then
    .ok []
  else
    let chunk := rest.take 1024 ++ List.replicate (1024 - rest.length) 0
    match r.process chunk with
    | .error e => .error e
    | .ok out =>
        match processChunks r (rest.drop 1024) with
        | .error e => .error e
        | .ok tail => .ok (out ++ tail)
termination_by rest.length
decreasing_by
  simp only [List.length_drop]
  omega

/-- Trace of the resampling stage: the result, and whether resampling
work (resampler construction, hence possibly chunk processing) was
attempted. -/
structure ResampleTrace where
  result : Except TranscriptionError (List ℚ)
  resamplerWorkAttempted : Bool

/-- Step 3 of `convert_audio_rust` (lines 134-219): if the source rate is
not 16000 Hz, compute `resample_ratio = 16000 / sample_rate` and the
expected output length; reject with an audio-read error if the ratio
exceeds 8; otherwise construct the resampler, process the input in
zero-padded 1024-sample chunks, and truncate to the expected length. -/
def resampleStep (sample_rate : Nat) (mono : List ℚ) (rubato : RubatoOracle) :
    ResampleTrace :=
  if sample_rate ≠ 16000 then
    let resample_ratio : ℚ := 16000 / (sample_rate : ℚ)
    let expected_output_len := ratRoundToNat ((mono.length : ℚ) * resample_ratio)
    if 8 < resample_ratio then
      { result := .error (.AudioReadError
          ("Sample rate " ++ toString sample_rate ++ " Hz is too low (minimum 2000 Hz)"))
        resamplerWorkAttempted := false }
    else
      match rubato.construct resample_ratio with
      | .error e =>
          { result := .error (.AudioReadError ("Failed to create resampler: " ++ e))
            resamplerWorkAttempted := true }
      | .ok r =>
          { result :=
              match processChunks r mono with
              | .error e => .error (.AudioReadError ("Resampling failed: " ++ e))
              | .ok out => .ok (out.take expected_output_len)
            resamplerWorkAttempted := true }
  else
    { result := .ok mono, resamplerWorkAttempted := false }

/-- The error kind of a failed process spawn: `NotFound` (the binary is
absent from the system) versus any other I/O error, each carrying the
`Display` text of the underlying `std::io::Error`. -/
inductive SpawnError where
  | notFound (msg : String)
  | other (msg : String)
deriving Repr, DecidableEq

/-- Model of `Display` text of the underlying I/O error. -/
def SpawnError.msg : SpawnError → String
  | .notFound m => m
  | .other m => m

/-- Outcome of invoking the external `ffmpeg` tool: the spawn itself
failed, or the process ran with the given success flag, stderr, and
output-file contents. -/
inductive FfmpegOutcome where
  | spawnFailed (e : SpawnError)
  | ran (success : Bool) (stderr : String) (converted : List Nat)
deriving Repr, DecidableEq

/-- Tier 3 of `transcription/mod.rs::convert_audio_for_whisper`
(lines 344-384): run `ffmpeg`; a `NotFound` spawn error becomes the
distinct `FfmpegNotFoundError`, any other spawn error becomes an
`AudioReadError`, a non-zero exit becomes an `AudioReadError` carrying
stderr, and success yields the converted bytes. -/
def transcriptionFfmpegTier (outcome : FfmpegOutcome) :
    Except TranscriptionError (List Nat) :=
  match outcome with
  | .spawnFailed (.notFound _) =>
      .error (.FfmpegNotFoundError
        "FFmpeg is not installed. Install FFmpeg to convert audio formats for local transcription.")
  | .spawnFailed (.other m) =>
      .error (.AudioReadError ("Failed to run ffmpeg: " ++ m))
  | .ran false stderr _ =>
      .error (.AudioReadError ("FFmpeg conversion failed: " ++ stderr))
  | .ran true _ converted => .ok converted

/-- The ffmpeg fallback of `whisper_cpp/mod.rs::convert_audio_for_whisper`
(lines 88-107): every spawn error — including `NotFound` — becomes the
generic `AudioReadError`, a non-zero exit becomes an `AudioReadError`
carrying stderr, and success yields the converted bytes. -/
def whisperCppFfmpegTier (outcome : FfmpegOutcome) :
    Except WhisperCppError (List Nat) :=
  match outcome with
  | .spawnFailed e =>
      .error (.AudioReadError ("Failed to run ffmpeg: " ++ e.msg))
  | .ran false stderr _ =>
      .error (.AudioReadError ("FFmpeg conversion failed: " ++ stderr))
  | .ran true _ converted => .ok converted

/-- Trace of the three-tier normalizer: result plus which tiers ran. -/
structure ConvertTrace where
  result : Except TranscriptionError (List Nat)
  tier2Ran : Bool
  tier3Ran : Bool

/-- Model of `transcription/mod.rs::convert_audio_for_whisper` (lines 298-385):
tier 1 returns the input unchanged when `is_valid_wav_format` holds;
otherwise tier 2 (the in-process conversion, supplied here as a function
because its resampler consults the external `rubato` oracle) is tried,
and on its failure tier 3 (the ffmpeg fallback, a function of the
external tool's outcome) decides the result. -/
def convert_audio_for_whisper
    (tier2 : List Nat → Except TranscriptionError (List Nat))
    (tier3 : List Nat → Except TranscriptionError (List Nat))
    (audio_data : List Nat) : ConvertTrace :=
  if is_valid_wav_format audio_data then
    { result := .ok audio_data, tier2Ran := false, tier3Ran := false }
  else
    match tier2 audio_data with
    | .ok converted => { result := .ok converted, tier2Ran := true, tier3Ran := false }
    | .error _ => { result := tier3 audio_data, tier2Ran := true, tier3Ran := true }

/-!
### Device directory (`recorder/audio_manager.rs`)
-/

/-- A cache entry of the device-directory worker (`DeviceInfo`); the
`last_checked` timestamp is not modelled (no claim depends on it). -/
structure DeviceInfoM where
  name : String
  is_available : Bool
deriving Repr, DecidableEq

/-- One outcome of `host.input_devices()` during a cache refresh: either
a host enumeration error, or the list of discovered devices, each with
its name and the result of the usability probe
(`device.default_input_config().is_ok()`).  Devices whose `name()` call
fails are simply absent from the list, as in the source. -/
inductive ScanResult where
  | scanFailed
  | found (devices : List (String × Bool))
deriving Repr, DecidableEq

/-- The device-directory worker state: the cache (modelled as an
association list keyed by device name, mirroring the `HashMap`), and
whether a full refresh has ever run (`last_full_refresh.is_some()`). -/
structure WorkerState where
  device_cache : List DeviceInfoM
  hasRefreshed : Bool
deriving Repr, DecidableEq

/-- Model of `HashMap::insert` keyed by device name on the association-list cache:
replace the entry with the same name, or append a new one. -/
def cacheInsert (cache : List DeviceInfoM) (name : String) (avail : Bool) :
    List DeviceInfoM :=
  if cache.any (fun info => info.name = name) then
    cache.map (fun info => if info.name = name then ⟨name, avail⟩ else info)
  else
    cache ++ [⟨name, avail⟩]

/-- Model of `AudioManagerWorker::refresh_cache`: mark every cached device
unavailable, then on a successful host scan insert each discovered
device with its probe result; on a host enumeration error keep the cache
and mark every entry available again.  Either way the refresh timestamp
is set. -/
def refresh_cache (st : WorkerState) (scan : ScanResult) : WorkerState :=
  let marked := st.device_cache.map (fun info => { info with is_available := false })
  match scan with
  | .found devices =>
      { device_cache := devices.foldl (fun c d => cacheInsert c d.1 d.2) marked
        hasRefreshed := true }
  | .scanFailed =>
      { device_cache := marked.map (fun info => { info with is_available := true })
        hasRefreshed := true }

/-- Insertion sort on strings, modelling `Vec::sort()` on device names. -/
def insertSorted (s : String) : List String → List String
  | [] => [s]
  | t :: ts => if s ≤ t then s :: t :: ts else t :: insertSorted s ts

/-- Sort a list of strings ascending, modelling `Vec::sort()`. -/
def sortStrings (l : List String) : List String :=
  l.foldr insertSorted []

/-- Collect the available device names from the cache, sorted: the
`values().filter(is_available).map(name).collect()` + `sort()` step. -/
def availableNamesSorted (st : WorkerState) : List String :=
  sortStrings ((st.device_cache.filter (fun info => info.is_available)).map
    (fun info => info.name))

/-- Trace of one `enumerate_devices_cached` query: the returned names,
the final worker state, and how many full rescans ran during the query. -/
structure EnumTrace where
  result : List String
  state : WorkerState
  refreshCount : Nat
deriving Repr, DecidableEq

/-- Model of `AudioManagerWorker::enumerate_devices_cached`: refresh the cache
when no prior scan exists or it is older than the freshness window
(`cacheExpired` models `last_full_refresh.elapsed() > cache_duration`);
collect the sorted available names; if that set is empty, run one more
refresh and re-collect.  `scans` supplies the host's answer to the i-th
scan of this query. -/
def enumerate_devices_cached (st : WorkerState) (cacheExpired : Bool)
    (scans : Nat → ScanResult) : EnumTrace :=
  let needs_refresh := !st.hasRefreshed || cacheExpired
  let (st1, count1) :=
    if needs_refresh then (refresh_cache st (scans 0), 1) else (st, 0)
  let devices := availableNamesSorted st1
  if devices.isEmpty then
    let st2 := refresh_cache st1 (scans count1)
    { result := availableNamesSorted st2, state := st2, refreshCount := count1 + 1 }
  else
    { result := devices, state := st1, refreshCount := count1 }

/-!
### Capture session (`recorder/recorder.rs`)
-/

/-- Model of `AudioRecording`: the metadata returned by `stop_recording`
(`audio_data` is always empty for file-based recording). -/
structure AudioRecording where
  audio_data : List ℚ
  sample_rate : Nat
  channels : Nat
  duration_seconds : ℚ
  file_path : Option String
deriving Repr, DecidableEq

/-- Model of `RecorderState`: the capture-session state machine.  The stream
holder is modelled by whether one exists; its thread is not modelled. -/
structure RecorderState where
  hasStreamHolder : Bool
  writer : Option WavWriter
  is_recording : Bool
  sample_rate : Nat
  channels : Nat
  file_path : Option String
deriving Repr, DecidableEq

/-- Model of `RecorderState::new`: no session, cleared rate/channels/path. -/
def recorderNew : RecorderState :=
  { hasStreamHolder := false
    writer := none
    is_recording := false
    sample_rate := 0
    channels := 0
    file_path := none }

/-- Model of `RecorderState::stop_recording`: clear the armed flag; when a writer
exists, finalize it and take its metadata, otherwise use the state's
(cleared) rate and channels with duration `0.0`; return the metadata
with the stored file path.  The writer-less branch performs no fallible
operation, so the call succeeds. -/
def stop_recording (st : RecorderState) : (Except String AudioRecording) × RecorderState :=
  let st := { st with is_recording := false }
  match st.writer with
  | some w =>
      let w := wavFinalize w
      let md := get_metadata w
      (.ok { audio_data := []
             sample_rate := md.1
             channels := md.2.1
             duration_seconds := md.2.2
             file_path := st.file_path },
       { st with writer := some w })
  | none =>
      (.ok { audio_data := []
             sample_rate := st.sample_rate
             channels := st.channels
             duration_seconds := 0
             file_path := st.file_path },
       st)

/-- Model of `RecorderState::close_session`: clear the armed flag, drop the
stream holder, finalize and drop the writer, clear path, rate and
channel count. -/
def close_session (_st : RecorderState) : RecorderState :=
  { hasStreamHolder := false
    writer := none
    is_recording := false
    sample_rate := 0
    channels := 0
    file_path := none }

/-- A trivial concrete instance of the external resampler oracle: construction
always succeeds with an identity chunk processor (used to instantiate theorems
at concrete inputs). -/
def trivialRubato : RubatoOracle :=
  { construct := fun _ => .ok { process := fun chunk => .ok chunk } }

/-- A concrete 44-byte canonical WAV container: mono, 16000 Hz, 16-bit
integer PCM, empty data chunk. -/
def sampleMonoWav : List Nat :=
  [82, 73, 70, 70] ++ u32le 36 ++ [87, 65, 86, 69] ++ [102, 109, 116, 32] ++
  u32le 16 ++ u16le 1 ++ u16le 1 ++ u32le 16000 ++ u32le 32000 ++ u16le 2 ++
  u16le 16 ++ [100, 97, 116, 97] ++ u32le 0

/-- The header facts claimed for a finalized writer: data-size field
`N × 4` at offset 40, RIFF-size field `36 + N × 4` at offset 4, and
duration `N / (rate × channels)`. -/
def headerFieldsOk (w : WavWriter) (N rate ch : Nat) : Prop :=
  readU32le w.headerBytes 40 = N * 4 ∧
  readU32le w.headerBytes 4 = 36 + N * 4 ∧
  get_duration_seconds w = (N : ℚ) / ((rate : ℚ) * (ch : ℚ))

/-!
### Helper lemmas about the byte-level file model
-/

theorem length_storeBytes (f bs : List Nat) (p : Nat) (h : p + bs.length ≤ f.length) :
    (storeBytes f p bs).length = f.length := by
  simp only [storeBytes, List.length_append, List.length_take, List.length_drop]
  omega

theorem getElem?_storeBytes (f bs : List Nat) (p i : Nat) (h : p + bs.length ≤ f.length) :
    (storeBytes f p bs)[i]? =
      if p ≤ i ∧ i < p + bs.length then bs[i - p]? else f[i]? := by
  have htl : (f.take p).length = p := by
    simp only [List.length_take]
    omega
  have hbl : (f.take p ++ bs).length = p + bs.length := by
    simp only [List.length_append, htl]
  unfold storeBytes
  rw [List.getElem?_append, hbl]
  by_cases h2 : i < p + bs.length
  · rw [if_pos h2, List.getElem?_append, htl]
    by_cases h1 : i < p
    · rw [if_pos h1, List.getElem?_take, if_pos h1, if_neg (by omega)]
    · rw [if_neg h1, if_pos ⟨by omega, h2⟩]
  · rw [if_neg h2, if_neg (by omega), List.getElem?_drop]
    congr 1
    omega

theorem readU32le_storeBytes_at (f : List Nat) (p n : Nat) (h : p + 4 ≤ f.length) :
    readU32le (storeBytes f p (u32le n)) p = n % 2 ^ 32 := by
  have h4 : (u32le n).length = 4 := rfl
  have key : ∀ i, p ≤ i → i < p + 4 → (storeBytes f p (u32le n))[i]? = (u32le n)[i - p]? := by
    intro i h1 h2
    rw [getElem?_storeBytes f (u32le n) p i (by omega), if_pos ⟨h1, by omega⟩]
  have e0 : p - p = 0 := by omega
  have e1 : p + 1 - p = 1 := by omega
  have e2 : p + 2 - p = 2 := by omega
  have e3 : p + 3 - p = 3 := by omega
  rw [readU32le, List.getD_eq_getElem?_getD, List.getD_eq_getElem?_getD,
    List.getD_eq_getElem?_getD, List.getD_eq_getElem?_getD,
    key p (by omega) (by omega), key (p + 1) (by omega) (by omega),
    key (p + 2) (by omega) (by omega), key (p + 3) (by omega) (by omega),
    e0, e1, e2, e3]
  simp only [u32le, List.getElem?_cons_zero, List.getElem?_cons_succ, Option.getD_some]
  omega

theorem readU32le_storeBytes_outside (f bs : List Nat) (p q : Nat)
    (h : p + bs.length ≤ f.length) (hd : q + 4 ≤ p ∨ p + bs.length ≤ q) :
    readU32le (storeBytes f p bs) q = readU32le f q := by
  have key : ∀ i, q ≤ i → i < q + 4 → (storeBytes f p bs)[i]? = f[i]? := by
    intro i h1 h2
    rw [getElem?_storeBytes f bs p i h, if_neg (by omega)]
  rw [readU32le, readU32le, List.getD_eq_getElem?_getD, List.getD_eq_getElem?_getD,
    List.getD_eq_getElem?_getD, List.getD_eq_getElem?_getD,
    List.getD_eq_getElem?_getD, List.getD_eq_getElem?_getD,
    List.getD_eq_getElem?_getD, List.getD_eq_getElem?_getD,
    key q (by omega) (by omega), key (q + 1) (by omega) (by omega),
    key (q + 2) (by omega) (by omega), key (q + 3) (by omega) (by omega)]

theorem store_store_idem (H A B : List Nat) (hA : A.length = 4) (hB : B.length = 4)
    (hl : 44 ≤ H.length) :
    storeBytes (storeBytes (storeBytes (storeBytes H 4 A) 40 B) 4 A) 40 B =
      storeBytes (storeBytes H 4 A) 40 B := by
  have hsA : (4 : Nat) + A.length ≤ H.length := by omega
  have l1 : (storeBytes H 4 A).length = H.length := length_storeBytes _ _ _ hsA
  have hsB : (40 : Nat) + B.length ≤ (storeBytes H 4 A).length := by
    rw [l1]; omega
  have l2 : (storeBytes (storeBytes H 4 A) 40 B).length = H.length := by
    rw [length_storeBytes _ _ _ hsB, l1]
  have hsA2 : (4 : Nat) + A.length ≤ (storeBytes (storeBytes H 4 A) 40 B).length := by
    rw [l2]; omega
  have l3 : (storeBytes (storeBytes (storeBytes H 4 A) 40 B) 4 A).length = H.length := by
    rw [length_storeBytes _ _ _ hsA2, l2]
  have hsB2 :
      (40 : Nat) + B.length ≤ (storeBytes (storeBytes (storeBytes H 4 A) 40 B) 4 A).length := by
    rw [l3]; omega
  apply List.ext_getElem?
  intro i
  rw [getElem?_storeBytes _ _ _ i hsB2, getElem?_storeBytes _ _ _ i hsA2,
    getElem?_storeBytes _ _ _ i hsB, getElem?_storeBytes _ _ _ i hsA]
  split_ifs <;> rfl

theorem update_headers_idem (w : WavWriter) (hr : w.riff_chunk_size_pos = 4)
    (hd : w.data_chunk_size_pos = 40) (hl : 44 ≤ w.headerBytes.length) :
    update_headers (update_headers w) = update_headers w := by
  unfold update_headers
  simp only [hr, hd]
  congr 1
  exact store_store_idem _ _ _ rfl rfl hl

theorem length_store_store (H : List Nat) (a b : Nat) (hl : 44 ≤ H.length) :
    (storeBytes (storeBytes H 4 (u32le a)) 40 (u32le b)).length = H.length := by
  have l1 : (storeBytes H 4 (u32le a)).length = H.length := by
    apply length_storeBytes
    simp only [u32le, List.length_cons, List.length_nil]
    omega
  rw [length_storeBytes _ _ _ (by rw [l1]; simp only [u32le, List.length_cons, List.length_nil]; omega), l1]

theorem update_headers_samples_written (w : WavWriter) :
    (update_headers w).samples_written = w.samples_written := rfl

theorem update_headers_sample_rate (w : WavWriter) :
    (update_headers w).sample_rate = w.sample_rate := rfl

theorem update_headers_channels (w : WavWriter) :
    (update_headers w).channels = w.channels := rfl

theorem update_headers_dataFloats (w : WavWriter) :
    (update_headers w).dataFloats = w.dataFloats := rfl

theorem update_headers_length (w : WavWriter) (hr : w.riff_chunk_size_pos = 4)
    (hd : w.data_chunk_size_pos = 40) (hl : 44 ≤ w.headerBytes.length) :
    (update_headers w).headerBytes.length = w.headerBytes.length := by
  unfold update_headers
  simp only [hr, hd]
  exact length_store_store _ _ _ hl

theorem readU32le_update_headers (w : WavWriter) (hr : w.riff_chunk_size_pos = 4)
    (hd : w.data_chunk_size_pos = 40) (hb : w.bytes_per_sample = 4)
    (hl : 44 ≤ w.headerBytes.length) :
    readU32le (update_headers w).headerBytes 40 = w.samples_written * 4 % 2 ^ 32 ∧
    readU32le (update_headers w).headerBytes 4 = (36 + w.samples_written * 4) % 2 ^ 32 := by
  unfold update_headers
  simp only [hr, hd, hb]
  have l1 : (storeBytes w.headerBytes 4
      (u32le ((36 + w.samples_written * 4 % 2 ^ 64) % 2 ^ 64 % 2 ^ 32))).length =
      w.headerBytes.length := by
    apply length_storeBytes
    simp only [u32le, List.length_cons, List.length_nil]
    omega
  constructor
  · rw [readU32le_storeBytes_at _ _ _ (by rw [l1]; omega)]
    omega
  · rw [readU32le_storeBytes_outside _ _ _ _ (by rw [l1]; simp only [u32le, List.length_cons, List.length_nil]; omega)
      (by simp only [u32le, List.length_cons, List.length_nil]; omega)]
    rw [readU32le_storeBytes_at _ _ _ (by omega)]
    omega

theorem wavWriterNew_headerBytes_length (r c : Nat) :
    (wavWriterNew r c).headerBytes.length = 44 := rfl

theorem headerFieldsOk_finalize (w : WavWriter) (N rate ch : Nat)
    (hr4 : w.riff_chunk_size_pos = 4) (hd40 : w.data_chunk_size_pos = 40)
    (hb : w.bytes_per_sample = 4) (hl : 44 ≤ w.headerBytes.length)
    (hsr : w.sample_rate = rate) (hch : w.channels = ch)
    (hsw : w.samples_written = N) (hN : 36 + N * 4 < 2 ^ 32) :
    headerFieldsOk (wavFinalize w) N rate ch := by
  obtain ⟨h40, h4⟩ := readU32le_update_headers w hr4 hd40 hb hl
  unfold headerFieldsOk wavFinalize
  refine ⟨?_, ?_, ?_⟩
  · rw [h40, hsw]
    exact Nat.mod_eq_of_lt (by omega)
  · rw [h4, hsw]
    exact Nat.mod_eq_of_lt (by omega)
  · unfold get_duration_seconds
    rw [update_headers_samples_written, update_headers_sample_rate,
      update_headers_channels, hsw, hsr, hch]

theorem bump_invariants (w0 : WavWriter) (d : List ℚ) (n : Nat) (due : Bool)
    (hr : w0.riff_chunk_size_pos = 4) (hd : w0.data_chunk_size_pos = 40)
    (hb : w0.bytes_per_sample = 4) (hl : 44 ≤ w0.headerBytes.length) :
    ((if due then update_headers { w0 with dataFloats := d, samples_written := n }
        else { w0 with dataFloats := d, samples_written := n }) : WavWriter).samples_written
        = n ∧
    (if due then update_headers { w0 with dataFloats := d, samples_written := n }
        else { w0 with dataFloats := d, samples_written := n }).sample_rate = w0.sample_rate ∧
    (if due then update_headers { w0 with dataFloats := d, samples_written := n }
        else { w0 with dataFloats := d, samples_written := n }).channels = w0.channels ∧
    (if due then update_headers { w0 with dataFloats := d, samples_written := n }
        else { w0 with dataFloats := d, samples_written := n }).bytes_per_sample = 4 ∧
    (if due then update_headers { w0 with dataFloats := d, samples_written := n }
        else { w0 with dataFloats := d, samples_written := n }).riff_chunk_size_pos = 4 ∧
    (if due then update_headers { w0 with dataFloats := d, samples_written := n }
        else { w0 with dataFloats := d, samples_written := n }).data_chunk_size_pos = 40 ∧
    44 ≤ (if due then update_headers { w0 with dataFloats := d, samples_written := n }
        else { w0 with dataFloats := d, samples_written := n }).headerBytes.length := by
  cases due
  · rw [if_neg (by simp)]
    exact ⟨rfl, rfl, rfl, hb, hr, hd, hl⟩
  · rw [if_pos rfl]
    have hr' : ({ w0 with dataFloats := d, samples_written := n } : WavWriter).riff_chunk_size_pos = 4 := hr
    have hd' : ({ w0 with dataFloats := d, samples_written := n } : WavWriter).data_chunk_size_pos = 40 := hd
    have hl' : 44 ≤ ({ w0 with dataFloats := d, samples_written := n } : WavWriter).headerBytes.length := hl
    refine ⟨rfl, rfl, rfl, hb, hr, hd, ?_⟩
    rw [update_headers_length _ hr' hd' hl']
    exact hl'

/-- Claim C6: finalize is idempotent — for every writer state whose header
positions are the ones established by `new` (RIFF size field at byte 4, data
size field at byte 40) and whose header region holds the full 44-byte header,
calling finalize twice with no intervening writes produces a byte-identical
writer (in particular byte-identical header contents), because each call
recomputes the same header values from the same sample counter. -/
theorem C6_finalize_idempotent (w : WavWriter) (hr : w.riff_chunk_size_pos = 4)
    (hd : w.data_chunk_size_pos = 40) (hl : 44 ≤ w.headerBytes.length) :
    wavFinalize (wavFinalize w) = wavFinalize w :=
  update_headers_idem w hr hd hl

/-- Witness for C6 at a concrete freshly-created writer. -/
theorem C6_finalize_idempotent_witness :
    wavFinalize (wavFinalize (wavWriterNew 16000 1)) = wavFinalize (wavWriterNew 16000 1) :=
  C6_finalize_idempotent (wavWriterNew 16000 1) rfl rfl
    (by rw [wavWriterNew_headerBytes_length])

theorem write_samples_f32_samples_written (w : WavWriter) (s : List ℚ) (due : Bool) :
    (write_samples_f32 w s due).samples_written = w.samples_written + s.length := by
  unfold write_samples_f32
  cases due
  · rw [if_neg (by simp)]
  · rw [if_pos rfl, update_headers_samples_written]

theorem write_samples_f32_false_fields (w : WavWriter) (s : List ℚ) :
    (write_samples_f32 w s false).headerBytes = w.headerBytes ∧
    (write_samples_f32 w s false).riff_chunk_size_pos = w.riff_chunk_size_pos ∧
    (write_samples_f32 w s false).data_chunk_size_pos = w.data_chunk_size_pos ∧
    (write_samples_f32 w s false).bytes_per_sample = w.bytes_per_sample :=
  ⟨rfl, rfl, rfl, rfl⟩

/-- Counterexample to claim C5 as stated: after writing `N = 2^30` samples and
finalizing, the data-size header field is the u32-truncated `N × 4 mod 2^32 = 0`,
not `N × 4 = 2^32`, because the field is stored as a 32-bit value. -/
theorem C5_counterexample :
    readU32le (wavFinalize (write_samples_f32 (wavWriterNew 16000 1)
        (List.replicate (2 ^ 30) 0) false)).headerBytes 40 = 0 ∧
    2 ^ 30 * 4 ≠ 0 := by
  constructor
  · obtain ⟨f1, f2, f3, f4⟩ :=
      write_samples_f32_false_fields (wavWriterNew 16000 1) (List.replicate (2 ^ 30) 0)
    have h := readU32le_update_headers
      (write_samples_f32 (wavWriterNew 16000 1) (List.replicate (2 ^ 30) 0) false)
      (by rw [f2]; rfl) (by rw [f3]; rfl) (by rw [f4]; rfl)
      (by rw [f1, wavWriterNew_headerBytes_length])
    unfold wavFinalize
    rw [h.1, write_samples_f32_samples_written, List.length_replicate,
      show (wavWriterNew 16000 1).samples_written = 0 from rfl, Nat.zero_add]
    norm_num
  · norm_num

/-- Claim C5 (amended): for all three supported sample formats, after writing
`N` samples to a fresh writer and finalizing, the data-size field holds
`N × 4` and the RIFF size field `36 + N × 4` **provided `36 + N × 4` fits in
a u32** (both fields are stored truncated to 32 bits, as the counterexample
shows), and the computed duration equals `N / (sample_rate × channels)`. -/
theorem C5_header_fields (rate ch N : Nat) (due : Bool) (_hrate : 0 < rate)
    (_hch : 0 < ch) (hN : 36 + N * 4 < 2 ^ 32)
    (si : List ℤ) (su : List Nat) (sf : List ℚ)
    (hsi : si.length = N) (hsu : su.length = N) (hsf : sf.length = N) :
    headerFieldsOk (wavFinalize (write_samples_i16 (wavWriterNew rate ch) si due)) N rate ch ∧
    headerFieldsOk (wavFinalize (write_samples_u16 (wavWriterNew rate ch) su due)) N rate ch ∧
    headerFieldsOk (wavFinalize (write_samples_f32 (wavWriterNew rate ch) sf due)) N rate ch := by
  refine ⟨?_, ?_, ?_⟩
  · obtain ⟨h1, h2, h3, h4, h5, h6, h7⟩ :=
      bump_invariants (wavWriterNew rate ch) ((wavWriterNew rate ch).dataFloats ++ si.map i16ToF32)
        ((wavWriterNew rate ch).samples_written + si.length) due rfl rfl rfl
        (by rw [wavWriterNew_headerBytes_length])
    exact headerFieldsOk_finalize _ _ _ _ h5 h6 h4 h7 h2 h3
      (h1.trans (by simp [wavWriterNew, hsi])) hN
  · obtain ⟨h1, h2, h3, h4, h5, h6, h7⟩ :=
      bump_invariants (wavWriterNew rate ch) ((wavWriterNew rate ch).dataFloats ++ su.map u16ToF32)
        ((wavWriterNew rate ch).samples_written + su.length) due rfl rfl rfl
        (by rw [wavWriterNew_headerBytes_length])
    exact headerFieldsOk_finalize _ _ _ _ h5 h6 h4 h7 h2 h3
      (h1.trans (by simp [wavWriterNew, hsu])) hN
  · obtain ⟨h1, h2, h3, h4, h5, h6, h7⟩ :=
      bump_invariants (wavWriterNew rate ch) ((wavWriterNew rate ch).dataFloats ++ sf)
        ((wavWriterNew rate ch).samples_written + sf.length) due rfl rfl rfl
        (by rw [wavWriterNew_headerBytes_length])
    exact headerFieldsOk_finalize _ _ _ _ h5 h6 h4 h7 h2 h3
      (h1.trans (by simp [wavWriterNew, hsf])) hN

/-- Witness for C5 at a concrete writer with two samples per format. -/
theorem C5_header_fields_witness :
    headerFieldsOk (wavFinalize (write_samples_i16 (wavWriterNew 16000 1) [1, -2] false))
      2 16000 1 ∧
    headerFieldsOk (wavFinalize (write_samples_u16 (wavWriterNew 16000 1) [0, 65535] false))
      2 16000 1 ∧
    headerFieldsOk (wavFinalize (write_samples_f32 (wavWriterNew 16000 1) [1/2, -1/2] false))
      2 16000 1 :=
  C5_header_fields 16000 1 2 false (by norm_num) (by norm_num) (by norm_num)
    [1, -2] [0, 65535] [1/2, -1/2] rfl rfl rfl

theorem write_samples_i16_dataFloats (w : WavWriter) (s : List ℤ) (due : Bool) :
    (write_samples_i16 w s due).dataFloats = w.dataFloats ++ s.map i16ToF32 := by
  unfold write_samples_i16
  cases due
  · rw [if_neg (by simp)]
  · rw [if_pos rfl, update_headers_dataFloats]

theorem write_samples_u16_dataFloats (w : WavWriter) (s : List Nat) (due : Bool) :
    (write_samples_u16 w s due).dataFloats = w.dataFloats ++ s.map u16ToF32 := by
  unfold write_samples_u16
  cases due
  · rw [if_neg (by simp)]
  · rw [if_pos rfl, update_headers_dataFloats]

/-- Counterexample to claim C1 as stated: writing the 16-bit sample `-32768`
appends the float `-32768 / 32767` (the code divides by `i16::MAX` = 32767),
which differs from the claimed `-32768 / 32768` and lies strictly below
`-1.0`, so not every appended sample lies in `[-1.0, 1.0]`. -/
theorem C1_counterexample :
    (write_samples_i16 (wavWriterNew 16000 1) [-32768] false).dataFloats =
      [(-32768 : ℚ) / 32767] ∧
    ((-32768 : ℚ) / 32767 ≠ (-32768 : ℚ) / 32768) ∧
    (-32768 : ℚ) / 32767 < -1 := by
  refine ⟨?_, by norm_num, by norm_num⟩
  rw [write_samples_i16_dataFloats]
  norm_num [wavWriterNew, i16ToF32]

/-- Claim C1 (amended): for every 16-bit signed sample written during capture,
the writer appends the float `sample / 32767` (division by `i16::MAX`, not by
32768 as claimed), so the appended value lies in `[-32768/32767, 1]` — for
`sample = -32768` it is slightly below `-1.0`; for every unsigned 16-bit
sample the writer appends `(u / 65535) × 2 - 1`, which lies in `[-1, 1]` as
claimed. -/
theorem C1_sample_normalization (w : WavWriter) (si : List ℤ) (su : List Nat)
    (due : Bool) (s : ℤ) (u : Nat)
    (hs1 : -32768 ≤ s) (hs2 : s ≤ 32767) (hu : u ≤ 65535) :
    (write_samples_i16 w si due).dataFloats = w.dataFloats ++ si.map i16ToF32 ∧
    (write_samples_u16 w su due).dataFloats = w.dataFloats ++ su.map u16ToF32 ∧
    i16ToF32 s = (s : ℚ) / 32767 ∧
    u16ToF32 u = (u : ℚ) / 65535 * 2 - 1 ∧
    (-32768 : ℚ) / 32767 ≤ i16ToF32 s ∧ i16ToF32 s ≤ 1 ∧
    (-1 : ℚ) ≤ u16ToF32 u ∧ u16ToF32 u ≤ 1 := by
  have hsQ1 : (-32768 : ℚ) ≤ (s : ℚ) := by exact_mod_cast hs1
  have hsQ2 : (s : ℚ) ≤ 32767 := by exact_mod_cast hs2
  have huQ : (u : ℚ) ≤ 65535 := by exact_mod_cast hu
  have huQ0 : (0 : ℚ) ≤ (u : ℚ) := by positivity
  have hdiv : (u : ℚ) / 65535 ≤ 1 := (div_le_one (by norm_num)).mpr huQ
  have hdiv0 : (0 : ℚ) ≤ (u : ℚ) / 65535 := by positivity
  refine ⟨write_samples_i16_dataFloats w si due, write_samples_u16_dataFloats w su due,
    rfl, rfl, ?_, ?_, ?_, ?_⟩
  · unfold i16ToF32
    exact div_le_div_of_nonneg_right hsQ1 (by norm_num) |>.trans_eq rfl
  · unfold i16ToF32
    rw [div_le_one (by norm_num)]
    exact hsQ2.trans (by norm_num)
  · unfold u16ToF32
    linarith
  · unfold u16ToF32
    linarith

/-- Witness for C1 at concrete samples. -/
theorem C1_sample_normalization_witness :
    (write_samples_i16 (wavWriterNew 16000 1) [100] false).dataFloats =
      (wavWriterNew 16000 1).dataFloats ++ [100].map i16ToF32 ∧
    (write_samples_u16 (wavWriterNew 16000 1) [200] false).dataFloats =
      (wavWriterNew 16000 1).dataFloats ++ [200].map u16ToF32 ∧
    i16ToF32 100 = (100 : ℚ) / 32767 ∧
    u16ToF32 200 = (200 : ℚ) / 65535 * 2 - 1 ∧
    (-32768 : ℚ) / 32767 ≤ i16ToF32 100 ∧ i16ToF32 100 ≤ 1 ∧
    (-1 : ℚ) ≤ u16ToF32 200 ∧ u16ToF32 200 ≤ 1 :=
  C1_sample_normalization (wavWriterNew 16000 1) [100] [200] false 100 200
    (by norm_num) (by norm_num) (by norm_num)

theorem chunksExact_cons_of (n : Nat) (l : List α) (h : 0 < n) (h2 : n ≤ l.length) :
    chunksExact n l = l.take n :: chunksExact n (l.drop n) := by
  rw [chunksExact, dif_pos ⟨h, h2⟩]

theorem chunksExact_eq_nil (n : Nat) (l : List α) (h : ¬(0 < n ∧ n ≤ l.length)) :
    chunksExact n l = [] := by
  rw [chunksExact, dif_neg h]

theorem chunksExact_flatten (c : Nat) (hc : 0 < c) (frames : List (List ℚ))
    (h : ∀ f ∈ frames, f.length = c) :
    chunksExact c frames.flatten = frames := by
  induction frames with
  | nil =>
      rw [List.flatten_nil, chunksExact_eq_nil c [] (by simp; omega)]
  | cons f fs ih =>
      have hf : f.length = c := h f (by simp)
      have hrest : ∀ g ∈ fs, g.length = c := fun g hg => h g (by simp [hg])
      rw [List.flatten_cons, chunksExact_cons_of c _ hc (by simp [hf]),
        List.take_left' hf, List.drop_left' hf, ih hrest]

theorem chunksExact_length_aux (n : Nat) (hn : 0 < n) :
    ∀ (k : Nat) (l : List α), l.length ≤ k → (chunksExact n l).length = l.length / n := by
  intro k
  induction k with
  | zero =>
      intro l hl
      rw [chunksExact_eq_nil n l (by omega), List.length_nil, Nat.div_eq_of_lt (by omega)]
  | succ k ih =>
      intro l hl
      by_cases h2 : n ≤ l.length
      · rw [chunksExact_cons_of n l hn h2, List.length_cons,
          ih (l.drop n) (by simp only [List.length_drop]; omega),
          List.length_drop, Nat.div_eq_sub_div hn h2]
      · rw [chunksExact_eq_nil n l (by omega), List.length_nil,
          Nat.div_eq_of_lt (by omega)]

theorem chunksExact_length (n : Nat) (hn : 0 < n) (l : List α) :
    (chunksExact n l).length = l.length / n :=
  chunksExact_length_aux n hn l.length l le_rfl

/-- Claim C9: when the tier-2 in-process converter downmixes a `c`-channel
input with `c > 1`, trailing samples that do not fill a complete `c`-sample
frame are silently dropped (`chunks_exact`), so the mono output has exactly
`⌊input_sample_count / c⌋` samples. -/
theorem C9_downmix_length (c : Nat) (hc : 2 ≤ c) (samples : List ℚ) :
    (downmixToMono c samples).length = samples.length / c := by
  unfold downmixToMono
  rw [if_neg (by omega)]
  by_cases h2 : c = 2
  · subst h2
    rw [if_pos rfl, List.length_map, chunksExact_length 2 (by norm_num)]
  · rw [if_neg h2, List.length_map, chunksExact_length c (by omega)]

/-- Witness for C9: 3 samples at 2 channels produce ⌊3/2⌋ = 1 mono sample. -/
theorem C9_downmix_length_witness :
    (downmixToMono 2 [(1 : ℚ), 2, 3]).length = 1 := by
  have h := C9_downmix_length 2 (by norm_num) [(1 : ℚ), 2, 3]
  simpa using h

/-- Claim C7: for every frame of a 2-channel input the tier-2 downmixed mono
sample equals `(L + R) / 2`, and for every frame of a `c`-channel input with
`c > 1` it equals the arithmetic mean of the `c` channel samples of that
frame. -/
theorem C7_downmix_mean (c : Nat) (hc : 2 ≤ c) (frames : List (List ℚ))
    (h : ∀ f ∈ frames, f.length = c) (L R : ℚ) :
    downmixToMono c frames.flatten = frames.map (fun f => f.sum / (c : ℚ)) ∧
    downmixToMono 2 [L, R] = [(L + R) / 2] := by
  constructor
  · unfold downmixToMono
    rw [if_neg (by omega)]
    by_cases h2 : c = 2
    · subst h2
      rw [if_pos rfl, chunksExact_flatten 2 (by norm_num) frames h]
      apply List.map_congr_left
      intro f hf
      obtain ⟨a, b, rfl⟩ := List.length_eq_two.mp (h f hf)
      simp
    · rw [if_neg h2, chunksExact_flatten c (by omega) frames h]
  · unfold downmixToMono
    rw [if_neg (by norm_num), if_pos rfl,
      chunksExact_cons_of 2 [L, R] (by norm_num) (by simp)]
    rw [show List.drop 2 [L, R] = [] from rfl, chunksExact_eq_nil 2 [] (by simp)]
    simp

/-- Witness for C7 at concrete frames and a concrete stereo pair. -/
theorem C7_downmix_mean_witness :
    downmixToMono 2 [[(1 : ℚ), 2], [3, 4]].flatten =
      [[(1 : ℚ), 2], [3, 4]].map (fun f => f.sum / (2 : ℚ)) ∧
    downmixToMono 2 [(5 : ℚ), 7] = [((5 : ℚ) + 7) / 2] :=
  C7_downmix_mean 2 (by norm_num) [[(1 : ℚ), 2], [3, 4]]
    (by intro f hf; simp at hf; rcases hf with h | h <;> simp [h]) 5 7

/-- Claim C2 (amended): when the ratio of target rate (16000 Hz) to source
rate exceeds 8 (source rate below 2000 Hz), the tier-2 conversion returns
the rate-out-of-range audio-read error before any resampling work: no
resampler construction and no chunk processing happen, whatever the
external resampler oracle would do.  The symmetric `< 1/8` rejection the
claim also asserts does not exist in the code (see the counterexample:
resampler construction is attempted for such ratios). -/
theorem C2_ratio_reject (rate : Nat) (mono : List ℚ) (rubato : RubatoOracle)
    (h1 : 0 < rate) (h2 : 8 < 16000 / (rate : ℚ)) :
    resampleStep rate mono rubato =
      { result := .error (.AudioReadError
          ("Sample rate " ++ toString rate ++ " Hz is too low (minimum 2000 Hz)"))
        resamplerWorkAttempted := false } := by
  have h0 : (0 : ℚ) < (rate : ℚ) := by positivity
  have hrate : rate < 2000 := by
    by_contra hcon
    push_neg at hcon
    have hq : (2000 : ℚ) ≤ (rate : ℚ) := by exact_mod_cast hcon
    rw [lt_div_iff₀ h0] at h2
    nlinarith
  simp only [resampleStep]
  rw [if_pos (by omega : rate ≠ 16000), if_pos h2]

/-- Witness for C2 at 1000 Hz (ratio 16): rejected with no resampler work. -/
theorem C2_ratio_reject_witness :
    resampleStep 1000 [] trivialRubato =
      { result := .error (.AudioReadError
          ("Sample rate " ++ toString 1000 ++ " Hz is too low (minimum 2000 Hz)"))
        resamplerWorkAttempted := false } :=
  C2_ratio_reject 1000 [] trivialRubato (by norm_num) (by norm_num)

/-- Counterexample to claim C2 as stated: at source rate 200000 Hz the ratio
16000/200000 = 2/25 is below 1/8, yet tier-2 does **not** return an error
before resampling work — resampler construction is attempted. -/
theorem C2_counterexample :
    (16000 / (200000 : ℚ) < 1 / 8) ∧
    (resampleStep 200000 [0] trivialRubato).resamplerWorkAttempted = true := by
  constructor
  · norm_num
  · simp only [resampleStep, trivialRubato]
    rw [if_pos (by omega : (200000 : Nat) ≠ 16000),
      if_neg (by norm_num : ¬(8 : ℚ) < 16000 / ((200000 : Nat) : ℚ))]

/-- Claim C3: any input that parses as a WAV container with exactly 1
channel, 16000 Hz, 16-bit integer PCM samples is returned byte-identically
unchanged by the normalizer, with neither tier 2 nor tier 3 running. -/
theorem C3_passthrough (audio : List Nat)
    (tier2 tier3 : List Nat → Except TranscriptionError (List Nat))
    (spec : WavSpecP) (hp : parseWavHeader audio = some spec)
    (h1 : spec.formatCode = 1) (h2 : spec.channels = 1)
    (h3 : spec.sampleRate = 16000) (h4 : spec.bitsPerSample = 16) :
    convert_audio_for_whisper tier2 tier3 audio =
      { result := .ok audio, tier2Ran := false, tier3Ran := false } := by
  unfold convert_audio_for_whisper
  rw [if_pos]
  unfold is_valid_wav_format
  rw [hp]
  simp [h1, h2, h3, h4]

/-- Witness for C3 at a concrete canonical mono/16k/16-bit container. -/
theorem C3_passthrough_witness :
    convert_audio_for_whisper (fun _ => .error (.AudioReadError "t2"))
      (fun _ => .error (.AudioReadError "t3")) sampleMonoWav =
      { result := .ok sampleMonoWav, tier2Ran := false, tier3Ran := false } :=
  C3_passthrough sampleMonoWav _ _
    { formatCode := 1, channels := 1, sampleRate := 16000, bitsPerSample := 16 }
    (by decide) rfl rfl rfl rfl

/-- Counterexample to claim C4 as stated: in the `whisper_cpp` module's
normalizer fallback, absence of the external tool (a `NotFound` spawn
error) produces the generic `AudioReadError` — the very same error a
non-NotFound I/O failure with the same display text produces — so it is
not a distinct, user-actionable external-tool-missing error. -/
theorem C4_counterexample :
    whisperCppFfmpegTier (.spawnFailed (.notFound "os error 2")) =
      .error (.AudioReadError ("Failed to run ffmpeg: " ++ "os error 2")) ∧
    whisperCppFfmpegTier (.spawnFailed (.notFound "os error 2")) =
      whisperCppFfmpegTier (.spawnFailed (.other "os error 2")) :=
  ⟨rfl, rfl⟩

/-- Claim C4 (amended): in the `transcription` module's three-tier
normalizer, a `NotFound` spawn error for the external tool becomes the
distinct `FfmpegNotFoundError` variant, which differs from every
`AudioReadError`; any other spawn error becomes a generic
`AudioReadError`.  The older `whisper_cpp` module's fallback does not make
this distinction (see the counterexample). -/
theorem C4_ffmpeg_missing_distinct (m m' : String) :
    transcriptionFfmpegTier (.spawnFailed (.notFound m)) =
      .error (.FfmpegNotFoundError
        "FFmpeg is not installed. Install FFmpeg to convert audio formats for local transcription.") ∧
    TranscriptionError.FfmpegNotFoundError m ≠ TranscriptionError.AudioReadError m' ∧
    (TranscriptionError.FfmpegNotFoundError m).name ≠
      (TranscriptionError.AudioReadError m').name ∧
    transcriptionFfmpegTier (.spawnFailed (.other m)) =
      .error (.AudioReadError ("Failed to run ffmpeg: " ++ m)) := by
  refine ⟨rfl, ?_, ?_, rfl⟩
  · intro h
    exact TranscriptionError.noConfusion h
  · intro h
    simp [TranscriptionError.name] at h

/-- Claim C8: in a device enumeration query, a mandatory refresh runs first
when the cache is absent or expired; if the collected set of available
devices is then empty, exactly one additional full rescan runs before the
(possibly still empty) re-collected result is returned, and no further
retries occur; if it is non-empty, no additional rescan runs. -/
theorem C8_single_retry (st : WorkerState) (ce : Bool) (scans : Nat → ScanResult) :
    (enumerate_devices_cached st ce scans).refreshCount =
      (if !st.hasRefreshed || ce then 1 else 0) +
        (if (availableNamesSorted
            (if !st.hasRefreshed || ce then refresh_cache st (scans 0) else st)).isEmpty
          then 1 else 0) ∧
    (enumerate_devices_cached st ce scans).result =
      (if (availableNamesSorted
            (if !st.hasRefreshed || ce then refresh_cache st (scans 0) else st)).isEmpty
        then availableNamesSorted (refresh_cache
          (if !st.hasRefreshed || ce then refresh_cache st (scans 0) else st)
          (scans (if !st.hasRefreshed || ce then 1 else 0)))
        else availableNamesSorted
          (if !st.hasRefreshed || ce then refresh_cache st (scans 0) else st)) := by
  by_cases hnr : (!st.hasRefreshed || ce) = true
  · by_cases he : (availableNamesSorted (refresh_cache st (scans 0))).isEmpty = true
    · simp [enumerate_devices_cached, hnr, he]
    · simp [enumerate_devices_cached, hnr, he]
  · have hnr' : (!st.hasRefreshed || ce) = false := by
      simpa using hnr
    by_cases he : (availableNamesSorted st).isEmpty = true
    · simp [enumerate_devices_cached, hnr', he]
    · simp [enumerate_devices_cached, hnr', he]

/-- Claim C10: calling stop with no initialized session (a fresh recorder
state), or right after close, does not fail: it returns Ok metadata with
duration 0, the cleared sample rate and channel count (both 0), and no
file path, leaving the state unchanged. -/
theorem C10_stop_without_session (st : RecorderState) :
    stop_recording recorderNew =
      (.ok { audio_data := [], sample_rate := 0, channels := 0,
             duration_seconds := 0, file_path := none }, recorderNew) ∧
    stop_recording (close_session st) =
      (.ok { audio_data := [], sample_rate := 0, channels := 0,
             duration_seconds := 0, file_path := none }, close_session st) :=
  ⟨rfl, rfl⟩
